import Mathlib

set_option maxRecDepth 2000

/-!
A shallow embedding of `src/main.py`, a Flask service that estimates a
disaster-risk percentage per Indian state and hazard type.

Modelling conventions:
- Python floats are embedded as rationals (`ℚ`); every arithmetic step of
  the source is exact rational arithmetic here.
- The Open-Meteo HTTP response consumed by `fetch_weather_data` is an
  explicit `Option RawWeather` argument: `none` stands for any exception
  raised during the fetch (timeout, HTTP error, malformed body), in which
  case the source's `except` branch returns the hard-coded default
  snapshot. The per-day forecast rows are carried as an already-parsed
  list, since no risk computation reads them.
- Python's process-randomized `hash` on strings is an explicit
  `String → ℤ` parameter of the endpoint model; Python's `%` on ints with
  a positive modulus agrees with `Int.emod`.
- The `try` body of `get_hf_semantic_score` is pure arithmetic, but to
  model the `except` branch faithfully the function takes a Boolean
  `raises` flag: `true` selects the `except` fallback 0.75.
- The `/predict/<state>` endpoint is `predict`: its 400 error response is
  the constructor `PredictResult.error` (carrying the state echoed in the
  message), and its JSON success payload is the record `Response`
  (the `details` block of the payload holds only a fixed provenance
  string, a timestamp and the state coordinates, none of which any claim
  reads, so it is not carried).
-/

namespace Main

/-- Weather dict as returned by `fetch_weather_data`: the risk calculators
read it with `dict.get(key, default)`, so every field is optional. -/
structure Weather where
  temperature : Option ℚ
  humidity : Option ℚ
  precipitation : Option ℚ
  wind_speed : Option ℚ
  forecast_summary : List (ℚ × ℚ × ℚ)
deriving DecidableEq, Repr

/-- A successfully fetched and parsed Open-Meteo response (the `current`
block, plus up to seven parsed forecast rows). -/
structure RawWeather where
  temperature : ℚ
  humidity : ℚ
  precipitation : ℚ
  wind_speed : ℚ
  forecast_summary : List (ℚ × ℚ × ℚ)
deriving DecidableEq, Repr

/-- Python dict lookup on a literal association table: `dlookup d key` is
`some v` for the first binding of `key`, else `none`; `dict.get(key, dflt)`
is `(dlookup d key).getD dflt`. -/
def dlookup {α : Type} (d : List (String × α)) (key : String) : Option α :=
  match d with
  | [] => none
  | (k, v) :: rest => if key = k then some v else dlookup rest key

/-- The `STATES` table of `src/main.py`: state name ↦ (lat, lon). -/
def STATES : List (String × ℚ × ℚ) := [
  ("Andhra Pradesh", 15.9129, 79.7400),
  ("Arunachal Pradesh", 28.2180, 94.7278),
  ("Assam", 26.2006, 92.9376),
  ("Bihar", 25.0961, 85.3131),
  ("Chhattisgarh", 21.2787, 81.8661),
  ("Goa", 15.2993, 73.8243),
  ("Gujarat", 22.2587, 71.1924),
  ("Haryana", 29.0588, 77.0745),
  ("Himachal Pradesh", 31.7433, 77.1205),
  ("Jharkhand", 23.6102, 85.2799),
  ("Karnataka", 15.3173, 75.7139),
  ("Kerala", 10.8505, 76.2711),
  ("Madhya Pradesh", 22.9734, 78.6569),
  ("Maharashtra", 19.7515, 75.7139),
  ("Manipur", 24.6637, 93.9063),
  ("Meghalaya", 25.4670, 91.3662),
  ("Mizoram", 23.1645, 92.9376),
  ("Nagaland", 26.1584, 94.5624),
  ("Odisha", 20.9517, 85.0985),
  ("Punjab", 31.1471, 75.3412),
  ("Rajasthan", 27.0238, 74.2179),
  ("Sikkim", 27.5330, 88.5122),
  ("Tamil Nadu", 11.1271, 78.6569),
  ("Telangana", 18.1124, 79.0193),
  ("Tripura", 23.9408, 91.9882),
  ("Uttar Pradesh", 26.8467, 80.9462),
  ("Uttarakhand", 30.0668, 79.0193),
  ("West Bengal", 24.5355, 88.3629),
  ("Delhi", 28.7041, 77.1025),
  ("Puducherry", 12.0657, 79.8711),
  ("Ladakh", 34.1526, 77.5770),
  ("Jammu and Kashmir", 33.7782, 76.5769)]

/-- The `flood_prone_states` multiplier dict inside `calculate_flood_risk`. -/
def flood_prone_states : List (String × ℚ) := [
  ("Assam", 1.5), ("Bihar", 1.3), ("Odisha", 1.4),
  ("West Bengal", 1.35), ("Kerala", 1.25), ("Uttar Pradesh", 1.2)]

/-- The `heat_prone_states` multiplier dict inside `calculate_heatwave_risk`. -/
def heat_prone_states : List (String × ℚ) := [
  ("Rajasthan", 1.4), ("Gujarat", 1.35), ("Madhya Pradesh", 1.3),
  ("Delhi", 1.25), ("Uttar Pradesh", 1.2), ("Maharashtra", 1.15)]

/-- The `seismic_zones` dict inside `calculate_earthquake_risk`. -/
def seismic_zones : List (String × ℚ) := [
  ("Assam", 75), ("Meghalaya", 70), ("Himachal Pradesh", 65),
  ("Uttarakhand", 70), ("Jammu and Kashmir", 80), ("Sikkim", 75),
  ("Arunachal Pradesh", 70), ("Nagaland", 65), ("Tripura", 50)]

/-- The `landslide_prone_states` multiplier dict inside `calculate_landslide_risk`. -/
def landslide_prone_states : List (String × ℚ) := [
  ("Himachal Pradesh", 1.6), ("Uttarakhand", 1.5), ("Meghalaya", 1.7),
  ("Arunachal Pradesh", 1.5), ("Mizoram", 1.6), ("Nagaland", 1.5),
  ("Kerala", 1.4), ("Odisha", 1.2), ("Assam", 1.3)]

/-- The `cyclone_prone_states` dict inside `calculate_cyclone_risk`. -/
def cyclone_prone_states : List (String × ℚ) := [
  ("Odisha", 85), ("Tamil Nadu", 75), ("Andhra Pradesh", 70),
  ("Karnataka", 50), ("Goa", 45), ("Maharashtra", 40),
  ("Kerala", 60), ("West Bengal", 75)]

/-- `calculate_flood_risk(weather_data, state_name)` of `src/main.py`. -/
def calculate_flood_risk (weather_data : Weather) (state_name : String) : ℚ :=
  let rainfall := weather_data.precipitation.getD 0
  let humidity := weather_data.humidity.getD 50
  let risk := min 100 (rainfall * 2 + humidity * 0.3)
  let risk := risk * ((dlookup flood_prone_states state_name).getD 1.0)
  min 100 risk

/-- `calculate_heatwave_risk(weather_data, state_name)` of `src/main.py`. -/
def calculate_heatwave_risk (weather_data : Weather) (state_name : String) : ℚ :=
  let temp := weather_data.temperature.getD 25
  let risk := max 0 ((temp - 35) * 5)
  let risk := risk * ((dlookup heat_prone_states state_name).getD 1.0)
  min 100 risk

/-- `calculate_earthquake_risk(state_name)` of `src/main.py`. -/
def calculate_earthquake_risk (state_name : String) : ℚ :=
  (dlookup seismic_zones state_name).getD 25

/-- `calculate_landslide_risk(weather_data, state_name)` of `src/main.py`. -/
def calculate_landslide_risk (weather_data : Weather) (state_name : String) : ℚ :=
  let rainfall := weather_data.precipitation.getD 0
  let risk := min 100 (rainfall * 3)
  let risk := risk * ((dlookup landslide_prone_states state_name).getD 1.0)
  min 100 risk

/-- `calculate_cyclone_risk(state_name)` of `src/main.py`. -/
def calculate_cyclone_risk (state_name : String) : ℚ :=
  (dlookup cyclone_prone_states state_name).getD 15

/-- `fetch_weather_data(lat, lon)` of `src/main.py`. The network response is
an explicit argument: `some raw` is a successful fetch-and-parse, `none` is
any exception, answered by the `except` branch's hard-coded snapshot. -/
def fetch_weather_data (response : Option RawWeather) : Weather :=
  match response with
  | some d =>
    { temperature := some d.temperature
      humidity := some d.humidity
      precipitation := some d.precipitation
      wind_speed := some d.wind_speed
      forecast_summary := d.forecast_summary.take 7 }
  | none =>
    { temperature := some 25
      humidity := some 60
      precipitation := some 0
      wind_speed := some 5
      forecast_summary := [] }

/-- `get_hf_semantic_score(disaster_type, state_name, risk_percentage)` of
`src/main.py`. `hash_state` stands for Python's `hash(state_name)`;
`raises = true` selects the `except` branch. -/
def get_hf_semantic_score (raises : Bool) (hash_state : ℤ) (risk_percentage : ℚ) : ℚ :=
  if raises then 0.75
  else
    let base_score := risk_percentage / 100
    let state_factor := 0.9 + (((hash_state % 10 : ℤ) : ℚ)) / 100
    min 1.0 (base_score * state_factor)

/-- Recommendation list of the `risk_percentage >= 75` branch of `predict`. -/
def recs_immediate : List String := [
  "⚠️ IMMEDIATE ACTION REQUIRED - Alert local authorities",
  "🏚️ Prepare evacuation routes and shelter centers",
  "📱 Activate emergency alert systems and SMS broadcasts",
  "🚑 Pre-position medical teams and rescue equipment",
  "💧 Ensure water supplies and power backup systems"]

/-- Recommendation list of the `risk_percentage >= 50` branch of `predict`. -/
def recs_highrisk : List String := [
  "🔔 Issue high-risk alert to residents",
  "📡 Activate disaster management committees",
  "🚧 Place traffic and safety barriers",
  "🏥 Mobilize healthcare facilities",
  "🔌 Check power and water supply systems"]

/-- Recommendation list of the `risk_percentage >= 25` branch of `predict`. -/
def recs_monitor : List String := [
  "⚡ Monitor situation closely with real-time updates",
  "👨‍👩‍👧‍👦 Advise residents to prepare emergency kits",
  "🗓️ Schedule disaster preparedness drills",
  "🌐 Activate community warning systems",
  "📋 Update disaster management protocols"]

/-- Recommendation list of the final `else` branch of `predict`. -/
def recs_normal : List String := [
  "✅ Situation under control",
  "🔍 Continue routine monitoring",
  "📊 Update predictive models regularly",
  "👥 Maintain public awareness programs",
  "🎓 Conduct education on disaster safety"]

/-- The `if risk_percentage >= 75 ... elif ... else` recommendation chain of
`predict` in `src/main.py`. -/
def recommendations_for (risk_percentage : ℚ) : List String :=
  if risk_percentage ≥ 75 then recs_immediate
  else if risk_percentage ≥ 50 then recs_highrisk
  else if risk_percentage ≥ 25 then recs_monitor
  else recs_normal

/-- The JSON success payload of `predict` (the `details` block holds only a
fixed provenance string, a timestamp and the echoed coordinates). -/
structure Response where
  state : String
  disaster_type : String
  risk_percentage : ℚ
  hf_semantic_score : ℚ
  confidence : ℚ
  weather : Weather
  recommendations : List String
deriving DecidableEq, Repr

/-- Outcome of a `/predict/<state>` request: `error s` is the 400 response
`jsonify error: State s not found`; `ok` is the 200 JSON payload. -/
inductive PredictResult where
  | error (state : String)
  | ok (resp : Response)
deriving DecidableEq, Repr

/-- The `risk_map` dict of `predict` and its `.get(disaster_type, 0)`:
all five hazard scores are computed eagerly (as in the Python dict
literal) and the requested one is selected, defaulting to 0. -/
def risk_for (weather : Weather) (state : String) (disaster_type : String) : ℚ :=
  let risk_map : List (String × ℚ) := [
    ("flood", calculate_flood_risk weather state),
    ("heatwave", calculate_heatwave_risk weather state),
    ("earthquake", calculate_earthquake_risk state),
    ("landslide", calculate_landslide_risk weather state),
    ("cyclone", calculate_cyclone_risk state)]
  (dlookup risk_map disaster_type).getD 0

/-- Python's `str.lower()` as applied to the `disaster_type` query
parameter (structural recursion over the characters; for the ASCII hazard
names this is exactly CPython's behaviour). -/
def str_lower (s : String) : String := ⟨s.data.map Char.toLower⟩

/-- `predict(state)` of `src/main.py`. `pyhash` models Python's randomized
string hash, `disaster_arg` the `disaster_type` query parameter (absent ⇒
default "flood"), `weather_response` the Open-Meteo response and
`semantic_raises` whether the semantic scorer's `try` body raises. -/
def predict (pyhash : String → ℤ) (state : String) (disaster_arg : Option String)
    (weather_response : Option RawWeather) (semantic_raises : Bool) : PredictResult :=
  let disaster_type := str_lower (disaster_arg.getD "flood")
  match dlookup STATES state with
  | none => .error state
  | some _coords =>
    let weather := fetch_weather_data weather_response
    let risk_percentage := risk_for weather state disaster_type
    let hf_score := get_hf_semantic_score semantic_raises (pyhash state) risk_percentage
    let confidence := min 0.95 (0.6 + hf_score * 0.35)
    .ok {
      state := state
      disaster_type := disaster_type
      risk_percentage := risk_percentage
      hf_semantic_score := hf_score
      confidence := confidence
      weather := weather
      recommendations := recommendations_for risk_percentage }

/-- Risk percentage of a predict outcome (`none` on the 400 error). -/
def result_risk : PredictResult → Option ℚ
  | .error _ => none
  | .ok r => some r.risk_percentage

/-- Confidence of a predict outcome (`none` on the 400 error). -/
def result_confidence : PredictResult → Option ℚ
  | .error _ => none
  | .ok r => some r.confidence

/-- Echoed weather snapshot of a predict outcome (`none` on the 400 error). -/
def result_weather : PredictResult → Option Weather
  | .error _ => none
  | .ok r => some r.weather

/-- Recommendation list of a predict outcome (`none` on the 400 error). -/
def result_recommendations : PredictResult → Option (List String)
  | .error _ => none
  | .ok r => some r.recommendations

/-- A concrete stand-in for Python's process-randomized string hash, used
for concrete evaluations. -/
def pyhash0 : String → ℤ := fun _ => 0

/-- Modelled from the spec: Python's round-half-to-even on a rational,
to the nearest integer. -/
def roundHalfEven (q : ℚ) : ℤ :=
  let f := ⌊q⌋
  let r := q - f
  if r < 1/2 then f
  else if r > 1/2 then f + 1
  else if f % 2 = 0 then f else f + 1

/-- Modelled from the spec: Python's `round(x, ndigits)`. -/
def pyround (ndigits : ℕ) (x : ℚ) : ℚ :=
  (roundHalfEven (x * 10 ^ ndigits) : ℚ) / 10 ^ ndigits

/-- Modelled from the spec: the Risk Fusion Core formula
`finalRisk = round(eventScore*0.5 + weatherScore*0.3 + semanticScore*0.2, 1)`,
clamped to [0,100]. No such fusion exists in `src/main.py`. -/
def fuse_spec (eventScore weatherScore semanticScore : ℚ) : ℚ :=
  min 100 (max 0 (pyround 1 (eventScore * 0.5 + weatherScore * 0.3 + semanticScore * 0.2)))

/-- Modelled from the spec: `confidence = round(0.6 + finalRisk/200, 2)`,
clamped to [0.6, 1.0]. No such formula exists in `src/main.py`. -/
def confidence_spec (finalRisk : ℚ) : ℚ :=
  min 1 (max 0.6 (pyround 2 (0.6 + finalRisk / 200)))

/-- Modelled from the spec: the claimed flood weather normalization
`min(80, precipitation*20 + humidity)` when humidity is present, else
`min(80, precipitation*20)`. -/
def flood_weather_spec (precipitation : ℚ) (humidity : Option ℚ) : ℚ :=
  match humidity with
  | some h => min 80 (precipitation * 20 + h)
  | none => min 80 (precipitation * 20)

/-- Band index of the recommendation chain actually in `predict`:
thresholds 25, 50, 75, lower bounds inclusive. -/
def band_code (r : ℚ) : ℕ :=
  if r ≥ 75 then 3 else if r ≥ 50 then 2 else if r ≥ 25 then 1 else 0

/-- Modelled from the spec: the claimed tier bands LOW [0,40),
MODERATE [40,60), HIGH [60,80), CRITICAL [80,100]. -/
def band_spec (r : ℚ) : ℕ :=
  if r ≥ 80 then 3 else if r ≥ 60 then 2 else if r ≥ 40 then 1 else 0

/-- A parsed Open-Meteo response reporting heavy rain (50 mm). -/
def raw_heavy_rain : RawWeather :=
  { temperature := 25, humidity := 60, precipitation := 50,
    wind_speed := 5, forecast_summary := [] }

/-- A malformed reading with negative precipitation (−100 mm). -/
def raw_negative_precip : RawWeather :=
  { temperature := 25, humidity := 50, precipitation := -100,
    wind_speed := 5, forecast_summary := [] }

/-- An unknown state short-circuits `predict` into the 400 error. -/
theorem predict_eq_error (ph : String → ℤ) (s : String) (d : Option String)
    (w : Option RawWeather) (sf : Bool) (h : dlookup STATES s = none) :
    predict ph s d w sf = .error s := by
  unfold predict
  rw [h]

/-- On a known state, the reported risk is the selected hazard score. -/
theorem result_risk_predict (ph : String → ℤ) (s : String) (d : Option String)
    (w : Option RawWeather) (sf : Bool) (coords : ℚ × ℚ)
    (h : dlookup STATES s = some coords) :
    result_risk (predict ph s d w sf) =
      some (risk_for (fetch_weather_data w) s (str_lower (d.getD "flood"))) := by
  unfold predict
  rw [h]
  rfl

/-- On a known state, the reported confidence is
`min(0.95, 0.6 + hf_score * 0.35)`. -/
theorem result_confidence_predict (ph : String → ℤ) (s : String) (d : Option String)
    (w : Option RawWeather) (sf : Bool) (coords : ℚ × ℚ)
    (h : dlookup STATES s = some coords) :
    result_confidence (predict ph s d w sf) =
      some (min 0.95 (0.6 + get_hf_semantic_score sf (ph s)
        (risk_for (fetch_weather_data w) s (str_lower (d.getD "flood"))) * 0.35)) := by
  unfold predict
  rw [h]
  rfl

/-- On a known state, the fetched weather snapshot is echoed back. -/
theorem result_weather_predict (ph : String → ℤ) (s : String) (d : Option String)
    (w : Option RawWeather) (sf : Bool) (coords : ℚ × ℚ)
    (h : dlookup STATES s = some coords) :
    result_weather (predict ph s d w sf) = some (fetch_weather_data w) := by
  unfold predict
  rw [h]
  rfl

/-- On a known state, the recommendations are chosen from the risk value. -/
theorem result_recommendations_predict (ph : String → ℤ) (s : String) (d : Option String)
    (w : Option RawWeather) (sf : Bool) (coords : ℚ × ℚ)
    (h : dlookup STATES s = some coords) :
    result_recommendations (predict ph s d w sf) =
      some (recommendations_for (risk_for (fetch_weather_data w) s (str_lower (d.getD "flood")))) := by
  unfold predict
  rw [h]
  rfl

/-- A property holding for every value of an association list and for the
default also holds for any `lookup … |>.getD default`. -/
theorem lookup_getD_prop (P : ℚ → Prop) (l : List (String × ℚ)) (s : String) (d : ℚ)
    (hl : ∀ p ∈ l, P p.2) (hd : P d) : P ((dlookup l s).getD d) := by
  induction l with
  | nil => simpa [dlookup] using hd
  | cons q tl ih =>
    obtain ⟨k, v⟩ := q
    by_cases hk : s = k
    · simpa [dlookup, hk] using hl ⟨k, v⟩ (List.mem_cons_self _ _)
    · simp only [dlookup, if_neg hk]
      exact ih fun p hp => hl p (List.mem_cons_of_mem _ hp)

/-- The semantic score never exceeds 1. -/
theorem hf_le_one (raises : Bool) (hv : ℤ) (r : ℚ) :
    get_hf_semantic_score raises hv r ≤ 1 := by
  unfold get_hf_semantic_score
  split_ifs with h
  · norm_num
  · exact le_trans (min_le_left _ _) (by norm_num)

/-- The semantic score is nonnegative whenever the risk input is. -/
theorem hf_nonneg (raises : Bool) (hv : ℤ) (r : ℚ) (h0 : 0 ≤ r) :
    0 ≤ get_hf_semantic_score raises hv r := by
  unfold get_hf_semantic_score
  split_ifs with h
  · norm_num
  · apply le_min (by norm_num)
    apply mul_nonneg (div_nonneg h0 (by norm_num))
    have hm : (0 : ℤ) ≤ hv % 10 := Int.emod_nonneg hv (by norm_num)
    have hm2 : (0 : ℚ) ≤ ((hv % 10 : ℤ) : ℚ) := by exact_mod_cast hm
    have := div_nonneg hm2 (by norm_num : (0:ℚ) ≤ 100)
    linarith

/-- The confidence formula of `predict` stays inside [0.6, 0.95] whenever
the risk input is nonnegative. -/
theorem confidence_formula_bounds (raises : Bool) (hv : ℤ) (r : ℚ) (h0 : 0 ≤ r) :
    0.6 ≤ min 0.95 (0.6 + get_hf_semantic_score raises hv r * 0.35) ∧
      min 0.95 (0.6 + get_hf_semantic_score raises hv r * 0.35) ≤ 0.95 := by
  have h1 := hf_nonneg raises hv r h0
  refine ⟨le_min (by norm_num) ?_, min_le_left _ _⟩
  nlinarith

/-- Lower-casing facts for the literal hazard strings used below. -/
theorem str_lower_flood : str_lower "flood" = "flood" := rfl

/-- Lower-casing of the literal "cyclone". -/
theorem str_lower_cyclone : str_lower "cyclone" = "cyclone" := rfl

/-- Lower-casing of the literal "earthquake". -/
theorem str_lower_earthquake : str_lower "earthquake" = "earthquake" := rfl

/-- Lower-casing of the literal "tsunami". -/
theorem str_lower_tsunami : str_lower "tsunami" = "tsunami" := rfl

/-- Concrete evaluation: flood risk for Goa under the default snapshot. -/
theorem eval_goa_flood_risk :
    result_risk (predict pyhash0 "Goa" (some "flood") none false) = some 18 := by
  simp [predict, risk_for, fetch_weather_data, calculate_flood_risk,
    calculate_heatwave_risk, calculate_earthquake_risk, calculate_landslide_risk,
    calculate_cyclone_risk, get_hf_semantic_score, result_risk, result_confidence,
    result_weather, result_recommendations, pyhash0, dlookup, STATES,
    flood_prone_states, heat_prone_states, seismic_zones, landslide_prone_states,
    cyclone_prone_states, str_lower_flood, str_lower_cyclone, str_lower_earthquake,
    str_lower_tsunami, raw_heavy_rain, raw_negative_precip, recommendations_for,
    recs_immediate, recs_highrisk, recs_monitor, recs_normal]
  norm_num [min_def, max_def]

/-- Concrete evaluation: confidence for Goa flood under the default snapshot. -/
theorem eval_goa_flood_conf :
    result_confidence (predict pyhash0 "Goa" (some "flood") none false) = some (6567/10000) := by
  simp [predict, risk_for, fetch_weather_data, calculate_flood_risk,
    calculate_heatwave_risk, calculate_earthquake_risk, calculate_landslide_risk,
    calculate_cyclone_risk, get_hf_semantic_score, result_risk, result_confidence,
    result_weather, result_recommendations, pyhash0, dlookup, STATES,
    flood_prone_states, heat_prone_states, seismic_zones, landslide_prone_states,
    cyclone_prone_states, str_lower_flood, str_lower_cyclone, str_lower_earthquake,
    str_lower_tsunami, raw_heavy_rain, raw_negative_precip, recommendations_for,
    recs_immediate, recs_highrisk, recs_monitor, recs_normal]
  norm_num [min_def, max_def]

/-- Concrete evaluation: cyclone risk for the landlocked Delhi. -/
theorem eval_delhi_cyclone_risk :
    result_risk (predict pyhash0 "Delhi" (some "cyclone") none false) = some 15 := by
  simp [predict, risk_for, fetch_weather_data, calculate_flood_risk,
    calculate_heatwave_risk, calculate_earthquake_risk, calculate_landslide_risk,
    calculate_cyclone_risk, get_hf_semantic_score, result_risk, result_confidence,
    result_weather, result_recommendations, pyhash0, dlookup, STATES,
    flood_prone_states, heat_prone_states, seismic_zones, landslide_prone_states,
    cyclone_prone_states, str_lower_flood, str_lower_cyclone, str_lower_earthquake,
    str_lower_tsunami, raw_heavy_rain, raw_negative_precip, recommendations_for,
    recs_immediate, recs_highrisk, recs_monitor, recs_normal]

/-- Concrete evaluation: confidence for Delhi cyclone. -/
theorem eval_delhi_cyclone_conf :
    result_confidence (predict pyhash0 "Delhi" (some "cyclone") none false) = some (2589/4000) := by
  simp [predict, risk_for, fetch_weather_data, calculate_flood_risk,
    calculate_heatwave_risk, calculate_earthquake_risk, calculate_landslide_risk,
    calculate_cyclone_risk, get_hf_semantic_score, result_risk, result_confidence,
    result_weather, result_recommendations, pyhash0, dlookup, STATES,
    flood_prone_states, heat_prone_states, seismic_zones, landslide_prone_states,
    cyclone_prone_states, str_lower_flood, str_lower_cyclone, str_lower_earthquake,
    str_lower_tsunami, raw_heavy_rain, raw_negative_precip, recommendations_for,
    recs_immediate, recs_highrisk, recs_monitor, recs_normal]
  norm_num [min_def, max_def]

/-- Concrete evaluation: flood risk for Assam under heavy rain saturates at 100. -/
theorem eval_assam_rain_risk :
    result_risk (predict pyhash0 "Assam" (some "flood") (some raw_heavy_rain) false) = some 100 := by
  simp [predict, risk_for, fetch_weather_data, calculate_flood_risk,
    calculate_heatwave_risk, calculate_earthquake_risk, calculate_landslide_risk,
    calculate_cyclone_risk, get_hf_semantic_score, result_risk, result_confidence,
    result_weather, result_recommendations, pyhash0, dlookup, STATES,
    flood_prone_states, heat_prone_states, seismic_zones, landslide_prone_states,
    cyclone_prone_states, str_lower_flood, str_lower_cyclone, str_lower_earthquake,
    str_lower_tsunami, raw_heavy_rain, raw_negative_precip, recommendations_for,
    recs_immediate, recs_highrisk, recs_monitor, recs_normal]
  norm_num [min_def, max_def]

/-- Concrete evaluation: confidence for Assam flood under heavy rain. -/
theorem eval_assam_rain_conf :
    result_confidence (predict pyhash0 "Assam" (some "flood") (some raw_heavy_rain) false) = some (183/200) := by
  simp [predict, risk_for, fetch_weather_data, calculate_flood_risk,
    calculate_heatwave_risk, calculate_earthquake_risk, calculate_landslide_risk,
    calculate_cyclone_risk, get_hf_semantic_score, result_risk, result_confidence,
    result_weather, result_recommendations, pyhash0, dlookup, STATES,
    flood_prone_states, heat_prone_states, seismic_zones, landslide_prone_states,
    cyclone_prone_states, str_lower_flood, str_lower_cyclone, str_lower_earthquake,
    str_lower_tsunami, raw_heavy_rain, raw_negative_precip, recommendations_for,
    recs_immediate, recs_highrisk, recs_monitor, recs_normal]
  norm_num [min_def, max_def]

/-- Concrete evaluation: flood risk for Assam under the default snapshot. -/
theorem eval_assam_flood_risk :
    result_risk (predict pyhash0 "Assam" (some "flood") none false) = some 27 := by
  simp [predict, risk_for, fetch_weather_data, calculate_flood_risk,
    calculate_heatwave_risk, calculate_earthquake_risk, calculate_landslide_risk,
    calculate_cyclone_risk, get_hf_semantic_score, result_risk, result_confidence,
    result_weather, result_recommendations, pyhash0, dlookup, STATES,
    flood_prone_states, heat_prone_states, seismic_zones, landslide_prone_states,
    cyclone_prone_states, str_lower_flood, str_lower_cyclone, str_lower_earthquake,
    str_lower_tsunami, raw_heavy_rain, raw_negative_precip, recommendations_for,
    recs_immediate, recs_highrisk, recs_monitor, recs_normal]
  norm_num [min_def, max_def]

/-- Concrete evaluation: confidence for Assam flood under the default snapshot. -/
theorem eval_assam_flood_conf :
    result_confidence (predict pyhash0 "Assam" (some "flood") none false) = some (13701/20000) := by
  simp [predict, risk_for, fetch_weather_data, calculate_flood_risk,
    calculate_heatwave_risk, calculate_earthquake_risk, calculate_landslide_risk,
    calculate_cyclone_risk, get_hf_semantic_score, result_risk, result_confidence,
    result_weather, result_recommendations, pyhash0, dlookup, STATES,
    flood_prone_states, heat_prone_states, seismic_zones, landslide_prone_states,
    cyclone_prone_states, str_lower_flood, str_lower_cyclone, str_lower_earthquake,
    str_lower_tsunami, raw_heavy_rain, raw_negative_precip, recommendations_for,
    recs_immediate, recs_highrisk, recs_monitor, recs_normal]
  norm_num [min_def, max_def]

/-- Concrete evaluation: an unknown hazard gets risk 0. -/
theorem eval_goa_tsunami_risk :
    result_risk (predict pyhash0 "Goa" (some "tsunami") none false) = some 0 := by
  simp [predict, risk_for, fetch_weather_data, calculate_flood_risk,
    calculate_heatwave_risk, calculate_earthquake_risk, calculate_landslide_risk,
    calculate_cyclone_risk, get_hf_semantic_score, result_risk, result_confidence,
    result_weather, result_recommendations, pyhash0, dlookup, STATES,
    flood_prone_states, heat_prone_states, seismic_zones, landslide_prone_states,
    cyclone_prone_states, str_lower_flood, str_lower_cyclone, str_lower_earthquake,
    str_lower_tsunami, raw_heavy_rain, raw_negative_precip, recommendations_for,
    recs_immediate, recs_highrisk, recs_monitor, recs_normal]

/-- Concrete evaluation: an unknown hazard gets the lowest-band recommendations. -/
theorem eval_goa_tsunami_recs :
    result_recommendations (predict pyhash0 "Goa" (some "tsunami") none false) = some recs_normal := by
  simp [predict, risk_for, fetch_weather_data, calculate_flood_risk,
    calculate_heatwave_risk, calculate_earthquake_risk, calculate_landslide_risk,
    calculate_cyclone_risk, get_hf_semantic_score, result_risk, result_confidence,
    result_weather, result_recommendations, pyhash0, dlookup, STATES,
    flood_prone_states, heat_prone_states, seismic_zones, landslide_prone_states,
    cyclone_prone_states, str_lower_flood, str_lower_cyclone, str_lower_earthquake,
    str_lower_tsunami, raw_heavy_rain, raw_negative_precip, recommendations_for,
    recs_immediate, recs_highrisk, recs_monitor, recs_normal]
  norm_num [min_def, max_def]

/-- Concrete evaluation: negative precipitation drives the flood risk to −185. -/
theorem eval_goa_negprecip_risk :
    result_risk (predict pyhash0 "Goa" (some "flood") (some raw_negative_precip) false) = some (-185) := by
  simp [predict, risk_for, fetch_weather_data, calculate_flood_risk,
    calculate_heatwave_risk, calculate_earthquake_risk, calculate_landslide_risk,
    calculate_cyclone_risk, get_hf_semantic_score, result_risk, result_confidence,
    result_weather, result_recommendations, pyhash0, dlookup, STATES,
    flood_prone_states, heat_prone_states, seismic_zones, landslide_prone_states,
    cyclone_prone_states, str_lower_flood, str_lower_cyclone, str_lower_earthquake,
    str_lower_tsunami, raw_heavy_rain, raw_negative_precip, recommendations_for,
    recs_immediate, recs_highrisk, recs_monitor, recs_normal]
  norm_num [min_def, max_def]

/-- C1 counterexample: the spec's fusion formula on the claimed scenario
(event 30, weather 25/60/0/5, semantic 50) yields 43.0, but the code, for
the flood hazard on the coastal state Goa with exactly that weather
snapshot, reports risk 18.0: no weighted fusion of event, weather and
semantic contributions exists in `predict`. -/
theorem claim_C1_cex :
    fuse_spec 30 60 50 = 43 ∧
    result_risk (predict pyhash0 "Goa" (some "flood") none false) = some 18 ∧
    (18 : ℚ) ≠ 43 :=
  ⟨by norm_num [fuse_spec, pyround, roundHalfEven, min_def, max_def],
   eval_goa_flood_risk, by norm_num⟩

/-- C1 (amended): the final risk is the selected hazard score alone — for
flood with the snapshot {temp 25, humidity 60, precip 0, wind 5} on a state
with flood multiplier 1 such as Goa it is 18.0
(= min(100, 0×2 + 60×0.3)), independent of the semantic-source inputs. -/
theorem claim_C1 (ph : String → ℤ) (sf : Bool) :
    result_risk (predict ph "Goa" (some "flood") none sf) = some 18 := by
  rw [result_risk_predict ph "Goa" (some "flood") none sf (15.2993, 73.8243)
    (by simp [dlookup, STATES])]
  simp [risk_for, fetch_weather_data, calculate_flood_risk, calculate_heatwave_risk,
    calculate_earthquake_risk, calculate_landslide_risk, calculate_cyclone_risk,
    dlookup, flood_prone_states, heat_prone_states, seismic_zones,
    landslide_prone_states, cyclone_prone_states, str_lower_flood]
  norm_num [min_def, max_def]

/-- C2 counterexample: Delhi is landlocked (absent from
`cyclone_prone_states`), yet `predict` computes cyclone risk 15 — not the
claimed 0.0 — and its confidence is 0.64725, not the claimed fixed 0.95:
no geographic eligibility filter exists in the code. -/
theorem claim_C2_cex :
    result_risk (predict pyhash0 "Delhi" (some "cyclone") none false) = some 15 ∧
    (15 : ℚ) ≠ 0 ∧
    result_confidence (predict pyhash0 "Delhi" (some "cyclone") none false) =
      some (2589/4000) ∧
    (2589/4000 : ℚ) ≠ 0.95 :=
  ⟨eval_delhi_cyclone_risk, by norm_num, eval_delhi_cyclone_conf, by norm_num⟩

/-- C2 (amended): the cyclone hazard is computed for every known state —
there is no coastal eligibility test. A state outside the
`cyclone_prone_states` table gets the default risk 15, and the weather
source is still consulted (its snapshot is echoed in the response). -/
theorem claim_C2 (ph : String → ℤ) (s : String) (w : Option RawWeather) (sf : Bool)
    (coords : ℚ × ℚ) (hs : dlookup STATES s = some coords)
    (hc : dlookup cyclone_prone_states s = none) :
    result_risk (predict ph s (some "cyclone") w sf) = some 15 ∧
    result_weather (predict ph s (some "cyclone") w sf) = some (fetch_weather_data w) := by
  refine ⟨?_, result_weather_predict ph s (some "cyclone") w sf coords hs⟩
  rw [result_risk_predict ph s (some "cyclone") w sf coords hs]
  have e : risk_for (fetch_weather_data w) s (str_lower ((some "cyclone").getD "flood")) =
      calculate_cyclone_risk s := rfl
  rw [e]
  unfold calculate_cyclone_risk
  rw [hc]
  rfl

/-- C2 witness: the amended statement instantiated at Delhi. -/
theorem claim_C2_witness :
    dlookup STATES "Delhi" = some (28.7041, 77.1025) ∧
    dlookup cyclone_prone_states "Delhi" = none ∧
    (result_risk (predict pyhash0 "Delhi" (some "cyclone") none false) = some 15 ∧
     result_weather (predict pyhash0 "Delhi" (some "cyclone") none false) =
       some (fetch_weather_data none)) :=
  ⟨by simp [dlookup, STATES], by simp [dlookup, cyclone_prone_states],
    claim_C2 pyhash0 "Delhi" none false (28.7041, 77.1025)
      (by simp [dlookup, STATES]) (by simp [dlookup, cyclone_prone_states])⟩

/-- C3 counterexample: the claimed bands (40/60/80) put 39 and 40 in
different tiers but 74 and 75 in the same tier; the code's recommendation
chain does exactly the opposite, because its thresholds are 25/50/75. -/
theorem claim_C3_cex :
    band_spec 39 ≠ band_spec 40 ∧
    recommendations_for (39 : ℚ) = recommendations_for 40 ∧
    band_spec 74 = band_spec 75 ∧
    recommendations_for (74 : ℚ) ≠ recommendations_for 75 := by
  decide

/-- C3 (amended): the recommendation set is determined from the final risk
by exactly four ordered bands with thresholds 25, 50 and 75, lower bounds
inclusive (so [0,25), [25,50), [50,75), [75,∞) — 100 lies in the top
band); two scores get the same recommendation set exactly when they fall
in the same such band, and the band of a score does not vary by hazard
(the chain reads only the score). -/
theorem claim_C3 (r1 r2 : ℚ) :
    recommendations_for r1 = recommendations_for r2 ↔ band_code r1 = band_code r2 := by
  unfold recommendations_for band_code
  split_ifs <;> decide

/-- C4 counterexample: on precipitation 4 and humidity 0 the spec's flood
normalization gives exactly 80, but `calculate_flood_risk` (for a state
with multiplier 1, e.g. Goa) gives 8: the code computes
`min(100, precip×2 + humidity×0.3)`, not `min(80, precip×20 + humidity)`. -/
theorem claim_C4_cex :
    flood_weather_spec 4 (some 0) = 80 ∧
    calculate_flood_risk
      { temperature := none, humidity := some 0, precipitation := some 4,
        wind_speed := none, forecast_summary := [] } "Goa" = 8 ∧
    (8 : ℚ) ≠ 80 := by
  refine ⟨by norm_num [flood_weather_spec, min_def], ?_, by norm_num⟩
  simp [calculate_flood_risk, dlookup, flood_prone_states]
  norm_num [min_def]

/-- C4 (amended): the flood score is
`min(100, min(100, precip×2 + humidity×0.3) × multiplier)` with humidity
defaulting to 50 when absent; for precipitation 4 on a state with
multiplier 1 this yields 8.0 when humidity is 0 and 23.0 when humidity is
missing (default 50). -/
theorem claim_C4 (t ws : Option ℚ) (fs : List (ℚ × ℚ × ℚ)) (s : String)
    (h : dlookup flood_prone_states s = none) :
    calculate_flood_risk
      { temperature := t, humidity := some 0, precipitation := some 4,
        wind_speed := ws, forecast_summary := fs } s = 8 ∧
    calculate_flood_risk
      { temperature := t, humidity := none, precipitation := some 4,
        wind_speed := ws, forecast_summary := fs } s = 23 := by
  unfold calculate_flood_risk
  rw [h]
  norm_num [min_def, Option.getD_none, Option.getD_some]

/-- C4 witness: the amended statement instantiated at Goa. -/
theorem claim_C4_witness :
    dlookup flood_prone_states "Goa" = none ∧
    (calculate_flood_risk
      { temperature := none, humidity := some 0, precipitation := some 4,
        wind_speed := none, forecast_summary := [] } "Goa" = 8 ∧
     calculate_flood_risk
      { temperature := none, humidity := none, precipitation := some 4,
        wind_speed := none, forecast_summary := [] } "Goa" = 23) :=
  ⟨by simp [dlookup, flood_prone_states],
    claim_C4 none none [] "Goa" (by simp [dlookup, flood_prone_states])⟩

/-- C5 counterexample: at final risk 100 (flood in Assam under heavy rain)
the spec formula `round(0.6 + risk/200, 2)` clamped to [0.6,1.0] gives
1.0, but the code reports confidence 0.915 (with hash ≡ 0): confidence is
`min(0.95, 0.6 + hf_score×0.35)`, not a function of the risk alone. -/
theorem claim_C5_cex :
    confidence_spec 100 = 1 ∧
    result_risk (predict pyhash0 "Assam" (some "flood") (some raw_heavy_rain) false) =
      some 100 ∧
    result_confidence (predict pyhash0 "Assam" (some "flood") (some raw_heavy_rain) false) =
      some (183/200) ∧
    (183/200 : ℚ) ≠ 1 :=
  ⟨by norm_num [confidence_spec, pyround, roundHalfEven, min_def, max_def],
   eval_assam_rain_risk, eval_assam_rain_conf, by norm_num⟩

/-- C5 (amended): for every applicable request the reported confidence
equals `min(0.95, 0.6 + hf_score×0.35)` where `hf_score` is the semantic
score computed from the risk and the state hash — and whenever the risk is
nonnegative that confidence lies in [0.6, 1.0] (in fact in [0.6, 0.95]). -/
theorem claim_C5 (ph : String → ℤ) (s : String) (d : Option String)
    (w : Option RawWeather) (sf : Bool) (r c : ℚ)
    (hr : result_risk (predict ph s d w sf) = some r)
    (hc : result_confidence (predict ph s d w sf) = some c)
    (h0 : 0 ≤ r) :
    c = min 0.95 (0.6 + get_hf_semantic_score sf (ph s) r * 0.35) ∧
    0.6 ≤ c ∧ c ≤ 1 := by
  cases h : dlookup STATES s with
  | none =>
    rw [predict_eq_error ph s d w sf h] at hr
    simp [result_risk] at hr
  | some coords =>
    rw [result_risk_predict ph s d w sf coords h] at hr
    rw [result_confidence_predict ph s d w sf coords h] at hc
    have hr2 := Option.some.inj hr
    have hc2 := Option.some.inj hc
    subst hr2
    subst hc2
    have hb := confidence_formula_bounds sf (ph s)
      (risk_for (fetch_weather_data w) s (str_lower (d.getD "flood"))) h0
    exact ⟨rfl, hb.1, le_trans hb.2 (by norm_num)⟩

/-- C5 witness: the amended statement instantiated at Assam with the
default weather snapshot (risk 27, confidence 0.68505). -/
theorem claim_C5_witness :
    result_risk (predict pyhash0 "Assam" (some "flood") none false) = some 27 ∧
    result_confidence (predict pyhash0 "Assam" (some "flood") none false) =
      some (13701/20000) ∧
    ((13701/20000 : ℚ) =
        min 0.95 (0.6 + get_hf_semantic_score false (pyhash0 "Assam") 27 * 0.35) ∧
      0.6 ≤ (13701/20000 : ℚ) ∧ (13701/20000 : ℚ) ≤ 1) :=
  ⟨eval_assam_flood_risk, eval_assam_flood_conf,
    claim_C5 pyhash0 "Assam" (some "flood") none false 27 (13701/20000)
      eval_assam_flood_risk eval_assam_flood_conf (by norm_num)⟩

/-- C6 counterexample: a request for the unknown hazard "tsunami" yields
risk_percentage 0, not an assessment built from a neutral weather-score
fallback of 30. -/
theorem claim_C6_cex :
    result_risk (predict pyhash0 "Goa" (some "tsunami") none false) = some 0 ∧
    (0 : ℚ) ≠ 30 :=
  ⟨eval_goa_tsunami_risk, by norm_num⟩

/-- C6 (amended): a request naming a state with no entry in `STATES` is
rejected with the 400 error before any risk computation, while an unknown
hazard type is not an error — it yields a complete response whose
risk_percentage is 0 (the `risk_map.get` default), with the lowest-band
recommendations. -/
theorem claim_C6 :
    (∀ (ph : String → ℤ) (s : String) (d : Option String) (w : Option RawWeather)
      (sf : Bool), dlookup STATES s = none → predict ph s d w sf = .error s) ∧
    (∀ (ph : String → ℤ) (s : String) (d : String) (w : Option RawWeather)
      (sf : Bool) (coords : ℚ × ℚ), dlookup STATES s = some coords →
      str_lower d ≠ "flood" → str_lower d ≠ "heatwave" → str_lower d ≠ "earthquake" →
      str_lower d ≠ "landslide" → str_lower d ≠ "cyclone" →
      result_risk (predict ph s (some d) w sf) = some 0 ∧
      result_recommendations (predict ph s (some d) w sf) = some recs_normal) := by
  constructor
  · exact fun ph s d w sf h => predict_eq_error ph s d w sf h
  · intro ph s d w sf coords hs h1 h2 h3 h4 h5
    have e : risk_for (fetch_weather_data w) s (str_lower ((some d).getD "flood")) = 0 := by
      unfold risk_for
      simp only [Option.getD_some]
      simp [dlookup, h1, h2, h3, h4, h5]
    refine ⟨?_, ?_⟩
    · rw [result_risk_predict ph s (some d) w sf coords hs, e]
    · rw [result_recommendations_predict ph s (some d) w sf coords hs, e]
      decide

/-- C6 witness: the amended statement instantiated at an unknown state
name and at the unknown hazard "tsunami" on Goa. -/
theorem claim_C6_witness :
    predict pyhash0 "Atlantis" none none false = .error "Atlantis" ∧
    (result_risk (predict pyhash0 "Goa" (some "tsunami") none false) = some 0 ∧
     result_recommendations (predict pyhash0 "Goa" (some "tsunami") none false) =
       some recs_normal) :=
  ⟨claim_C6.1 pyhash0 "Atlantis" none none false (by simp [dlookup, STATES]),
   claim_C6.2 pyhash0 "Goa" "tsunami" none false (15.2993, 73.8243)
     (by simp [dlookup, STATES]) (by decide) (by decide) (by decide)
     (by decide) (by decide)⟩

/-- C7 counterexample: with precipitation −100 the flood request on Goa
reports risk −185: `min(100, …)` clamps only from above, so an
out-of-bounds negative precipitation propagates to a negative final risk,
contradicting the claimed [0,100] invariant. -/
theorem claim_C7_cex :
    result_risk (predict pyhash0 "Goa" (some "flood") (some raw_negative_precip) false) =
      some (-185) ∧
    ¬ (0 ≤ (-185 : ℚ)) :=
  ⟨eval_goa_negprecip_risk, by norm_num⟩

/-- C7 (amended): every hazard score is clamped above at 100, and the
heatwave, earthquake and cyclone scores always lie in [0,100]; the flood
and landslide scores lie in [0,100] only under the physical-bounds
assumption that the (defaulted) precipitation and humidity are
nonnegative — the code never clamps below, so negative inputs do
propagate (see the counterexample). -/
theorem claim_C7 (w : Weather) (s : String)
    (hp : 0 ≤ w.precipitation.getD 0) (hh : 0 ≤ w.humidity.getD 50) :
    (0 ≤ calculate_heatwave_risk w s ∧ calculate_heatwave_risk w s ≤ 100) ∧
    (0 ≤ calculate_earthquake_risk s ∧ calculate_earthquake_risk s ≤ 100) ∧
    (0 ≤ calculate_cyclone_risk s ∧ calculate_cyclone_risk s ≤ 100) ∧
    (0 ≤ calculate_flood_risk w s ∧ calculate_flood_risk w s ≤ 100) ∧
    (0 ≤ calculate_landslide_risk w s ∧ calculate_landslide_risk w s ≤ 100) := by
  refine ⟨⟨?_, ?_⟩, ?_, ?_, ⟨?_, ?_⟩, ⟨?_, ?_⟩⟩
  · unfold calculate_heatwave_risk
    have hm : (0:ℚ) ≤ (dlookup heat_prone_states s).getD 1.0 :=
      lookup_getD_prop (fun v => 0 ≤ v) _ s _
        (by norm_num [heat_prone_states, List.forall_mem_cons]) (by norm_num)
    exact le_min (by norm_num)
      (mul_nonneg (le_max_left _ _) hm)
  · exact min_le_left _ _
  · exact lookup_getD_prop (fun v => 0 ≤ v ∧ v ≤ 100) _ s _
      (by norm_num [seismic_zones, List.forall_mem_cons]) (by norm_num)
  · exact lookup_getD_prop (fun v => 0 ≤ v ∧ v ≤ 100) _ s _
      (by norm_num [cyclone_prone_states, List.forall_mem_cons]) (by norm_num)
  · unfold calculate_flood_risk
    have hm : (0:ℚ) ≤ (dlookup flood_prone_states s).getD 1.0 :=
      lookup_getD_prop (fun v => 0 ≤ v) _ s _
        (by norm_num [flood_prone_states, List.forall_mem_cons]) (by norm_num)
    refine le_min (by norm_num) (mul_nonneg (le_min (by norm_num) ?_) hm)
    have h2 : (0:ℚ) ≤ w.humidity.getD 50 * 0.3 := mul_nonneg hh (by norm_num)
    linarith
  · exact min_le_left _ _
  · unfold calculate_landslide_risk
    have hm : (0:ℚ) ≤ (dlookup landslide_prone_states s).getD 1.0 :=
      lookup_getD_prop (fun v => 0 ≤ v) _ s _
        (by norm_num [landslide_prone_states, List.forall_mem_cons]) (by norm_num)
    refine le_min (by norm_num) (mul_nonneg (le_min (by norm_num) ?_) hm)
    linarith
  · exact min_le_left _ _

/-- C7 witness: the amended statement instantiated at the default weather
snapshot on Goa. -/
theorem claim_C7_witness :
    (0 ≤ calculate_heatwave_risk (fetch_weather_data none) "Goa" ∧
      calculate_heatwave_risk (fetch_weather_data none) "Goa" ≤ 100) ∧
    (0 ≤ calculate_earthquake_risk "Goa" ∧ calculate_earthquake_risk "Goa" ≤ 100) ∧
    (0 ≤ calculate_cyclone_risk "Goa" ∧ calculate_cyclone_risk "Goa" ≤ 100) ∧
    (0 ≤ calculate_flood_risk (fetch_weather_data none) "Goa" ∧
      calculate_flood_risk (fetch_weather_data none) "Goa" ≤ 100) ∧
    (0 ≤ calculate_landslide_risk (fetch_weather_data none) "Goa" ∧
      calculate_landslide_risk (fetch_weather_data none) "Goa" ≤ 100) :=
  claim_C7 (fetch_weather_data none) "Goa" (by norm_num [fetch_weather_data])
    (by norm_num [fetch_weather_data])

/-- C8 counterexample: when the semantic scorer's `try` body raises, the
`except` branch returns 0.75, not the claimed raw confidence 0.5
(semantic score 50). -/
theorem claim_C8_cex :
    get_hf_semantic_score true 0 0 = 0.75 ∧ (0.75 : ℚ) ≠ 0.5 :=
  ⟨rfl, by norm_num⟩

/-- C8 (amended): a failed weather fetch is answered by exactly the
default snapshot {temperature 25, humidity 60, precipitation 0, wind 5}
(with an empty forecast list) and the request still succeeds; a failing
semantic computation contributes the fallback score 0.75 (not 0.5); no
event source exists in the code, so no baseline event score 30 enters any
computation. -/
theorem claim_C8 :
    fetch_weather_data none =
      { temperature := some 25, humidity := some 60, precipitation := some 0,
        wind_speed := some 5, forecast_summary := [] } ∧
    ∀ (hv : ℤ) (r : ℚ), get_hf_semantic_score true hv r = 0.75 :=
  ⟨rfl, fun _ _ => rfl⟩

/-- C9: the earthquake and cyclone risks reported by `predict` depend only
on the state name — two evaluations for the same state with arbitrarily
different weather responses, hash functions and semantic failures return
identical risk values. -/
theorem claim_C9 (ph1 ph2 : String → ℤ) (s : String) (w1 w2 : Option RawWeather)
    (sf1 sf2 : Bool) :
    result_risk (predict ph1 s (some "earthquake") w1 sf1) =
      result_risk (predict ph2 s (some "earthquake") w2 sf2) ∧
    result_risk (predict ph1 s (some "cyclone") w1 sf1) =
      result_risk (predict ph2 s (some "cyclone") w2 sf2) := by
  cases h : dlookup STATES s with
  | none =>
    rw [predict_eq_error ph1 s (some "earthquake") w1 sf1 h,
        predict_eq_error ph2 s (some "earthquake") w2 sf2 h,
        predict_eq_error ph1 s (some "cyclone") w1 sf1 h,
        predict_eq_error ph2 s (some "cyclone") w2 sf2 h]
    exact ⟨rfl, rfl⟩
  | some coords =>
    rw [result_risk_predict ph1 s (some "earthquake") w1 sf1 coords h,
        result_risk_predict ph2 s (some "earthquake") w2 sf2 coords h,
        result_risk_predict ph1 s (some "cyclone") w1 sf1 coords h,
        result_risk_predict ph2 s (some "cyclone") w2 sf2 coords h]
    exact ⟨rfl, rfl⟩

/-- C10: whenever the computed risk is nonnegative, the reported
confidence lies in [0.6, 0.95] — 0.95 is a hard ceiling (`min(0.95, …)`),
so a confidence of 1.0 is never reported. -/
theorem claim_C10 (ph : String → ℤ) (s : String) (d : Option String)
    (w : Option RawWeather) (sf : Bool) (r c : ℚ)
    (hr : result_risk (predict ph s d w sf) = some r)
    (hc : result_confidence (predict ph s d w sf) = some c)
    (h0 : 0 ≤ r) :
    0.6 ≤ c ∧ c ≤ 0.95 ∧ c ≠ 1 := by
  cases h : dlookup STATES s with
  | none =>
    rw [predict_eq_error ph s d w sf h] at hr
    simp [result_risk] at hr
  | some coords =>
    rw [result_risk_predict ph s d w sf coords h] at hr
    rw [result_confidence_predict ph s d w sf coords h] at hc
    have hr2 := Option.some.inj hr
    have hc2 := Option.some.inj hc
    subst hr2
    subst hc2
    have hb := confidence_formula_bounds sf (ph s)
      (risk_for (fetch_weather_data w) s (str_lower (d.getD "flood"))) h0
    exact ⟨hb.1, hb.2, ne_of_lt (lt_of_le_of_lt hb.2 (by norm_num))⟩

/-- C10 witness: the statement instantiated at Goa with the default
weather snapshot (risk 18, confidence 0.6567). -/
theorem claim_C10_witness :
    result_risk (predict pyhash0 "Goa" (some "flood") none false) = some 18 ∧
    result_confidence (predict pyhash0 "Goa" (some "flood") none false) =
      some (6567/10000) ∧
    (0.6 ≤ (6567/10000 : ℚ) ∧ (6567/10000 : ℚ) ≤ 0.95 ∧ (6567/10000 : ℚ) ≠ 1) :=
  ⟨eval_goa_flood_risk, eval_goa_flood_conf,
    claim_C10 pyhash0 "Goa" (some "flood") none false 18 (6567/10000)
      eval_goa_flood_risk eval_goa_flood_conf (by norm_num)⟩

end Main
